import Mathlib

/-!
# Verification of the autok3s Tencent provider (pkg/providers/tencent/tencent.go)

This development gives a shallow embedding of the resource-lifecycle
orchestration logic of the Tencent provider and proves/refutes the claims of
the natural-language specification against it.

Provider API calls are modelled by passing their results in explicitly (as
`Except`-valued environment fields), and the side effects issued by the code
(disassociate / wait-task / release / terminate calls) are modelled as
explicit action traces.  The concurrent `sync.Map` node registry is modelled
as an association list in iteration order; `sync.Map.Store` is an upsert and
`Range` is an in-order fold, matching the per-entry-atomicity contract the
code relies on.
-/

namespace Autok3sTencent

/-- Decimal value of a digit list (the accumulator loop of Go's `Atoi`). -/
def charsToNat (l : List Char) : Nat :=
  l.foldl (fun n c => n * 10 + (c.toNat - '0'.toNat)) 0

/-- Go `math.MinInt64`, the lower bound of the 64-bit `int` that
`strconv.Atoi` parses into. -/
def goMinInt : Int := -9223372036854775808

/-- Go `math.MaxInt64`, the upper bound of `strconv.Atoi`'s `int`. -/
def goMaxInt : Int := 9223372036854775807

/-- Go `strconv.Atoi`: optional sign followed by at least one digit, with
the signed value required to fit the 64-bit `int` (out-of-range input is
`ErrRange`, so `err != nil`).  Both the syntax-error and the range-error
case are collapsed to `none`: every caller in this file either returns as
soon as `err != nil` without reading the value (`CreateCheck`'s master-count
check), or ignores the error where the value Go would deliver (`0` on a
syntax error, the clamped `MinInt64`/`MaxInt64` on a range error) fails
exactly the same comparisons as `(goAtoi p).getD 0` does (the port scan,
whose cases are all small positive numbers).  Written on the character list
so that it evaluates by kernel reduction. -/
def goAtoi (s : String) : Option Int :=
  match s.data with
  | [] => none
  | c :: rest =>
    let (sign, digits) :=
      if c = '-' then ((-1 : Int), rest)
      else if c = '+' then ((1 : Int), rest)
      else ((1 : Int), c :: rest)
    if digits ≠ [] ∧ digits.all Char.isDigit then
      let val : Int := sign * charsToNat digits
      if goMinInt ≤ val ∧ val ≤ goMaxInt then some val else none
    else none

/-- Does the second list occur at the head of the first? -/
def beginsWith : List Char → List Char → Bool
  | _, [] => true
  | [], _ :: _ => false
  | c :: cs, d :: ds => c = d && beginsWith cs ds

/-- Does the second list occur anywhere inside the first? -/
def containsChars : List Char → List Char → Bool
  | _, [] => true
  | [], _ :: _ => false
  | c :: cs, pat => beginsWith (c :: cs) pat || containsChars cs pat

/-- Go `strings.Contains`. -/
def goContains (s sub : String) : Bool :=
  containsChars s.data sub.data

/-- Go `strings.Split(s, ",")` on the character list. -/
def splitCommaChars : List Char → List (List Char)
  | [] => [[]]
  | c :: rest =>
    if c = ',' then [] :: splitCommaChars rest
    else
      match splitCommaChars rest with
      | [] => [[c]]
      | w :: ws => (c :: w) :: ws

/-- Go `strings.Split(s, ",")`. -/
def goSplitComma (s : String) : List String :=
  (splitCommaChars s.data).map (fun l => ⟨l⟩)

/-- Go `strings.ToUpper`, restricted to ASCII (the folded constants are all
ASCII); written on the character list so that it evaluates by reduction. -/
def goToUpper (s : String) : String := ⟨s.data.map Char.toUpper⟩

/-- Go `strings.ToLower`, restricted to ASCII (see `goToUpper`). -/
def goToLower (s : String) : String := ⟨s.data.map Char.toLower⟩

/-- Go `strings.EqualFold`, restricted to the ASCII folding the compared
constants need. -/
def goEqualFold (a b : String) : Bool :=
  goToLower a == goToLower b

/-! ## Constants from the source file (`const` block of tencent.go) -/

def defaultRegion : String := "ap-guangzhou"
def defaultZone : String := "ap-guangzhou-3"
def defaultSecurityGroupName : String := "autok3s"
def vpcName : String := "autok3s-tencent-vpc"
def subnetName : String := "autok3s-tencent-subnet"
def vpcCidrBlock : String := "192.168.0.0/16"
def subnetCidrBlock : String := "192.168.3.0/24"
def ipRange : String := "0.0.0.0/0"

/-- Modelled from the spec: the status/result string constants live in the
`pkg/types/tencent` package, which is not part of the analyzed source.  The
spec describes the provider's async-task result as the tri-state
Running/Success/Failed that the `DescribeTaskResult` endpoint returns in
upper case, and instance lifecycle statuses as Pending/Running. -/
def tencentRunning : String := "RUNNING"

/-- Modelled from the spec: task terminal success constant (see
`tencentRunning`). -/
def tencentSuccess : String := "SUCCESS"

/-- Modelled from the spec: task terminal failure constant (see
`tencentRunning`). -/
def tencentFailed : String := "FAILED"

/-- Modelled from the spec: instance status constant `StatusPending` of the
missing types package; its concrete value is irrelevant to the claims, which
treat it as an opaque token. -/
def statusPending : String := "Pending"

/-- Modelled from the spec: instance status constant `StatusRunning` of the
missing types package (opaque token for the claims). -/
def statusRunning : String := "Running"

/-- Modelled from the spec: the tagging service's service-type constant for
floating IPs (`tencent.ServiceTypeEIP`), compared case-insensitively. -/
def serviceTypeEIP : String := "eip"

/-- Modelled from the spec: the tagging service's resource-prefix constant
for floating IPs (`tencent.ResourcePrefixEIP`), compared case-insensitively. -/
def resourcePfEIP : String := "eip"

/-! ## Async task polling (`describeVpcTaskResult`, lines 1313-1340)

The closure handed to `wait.ExponentialBackoff` returns `(done?, error)`;
we name the three possible pairs. -/

/-- Outcome of one poll of the task-result endpoint, as seen by the backoff
driver: `(false, nil)` / `(true, nil)` / `(true, err)`. -/
inductive PollOutcome where
  | notYetDone
  | done
  | terminalFailure (taskId : Nat)
deriving Repr, DecidableEq

/-- One iteration of the poll closure in `describeVpcTaskResult`: an API
error is swallowed (`return false, nil`); otherwise the upper-cased result
string is matched against Running/Success/Failed, and any other value falls
through to `return true, nil`. -/
def describeVpcTaskPoll (taskID : Nat) (resp : Except String String) : PollOutcome :=
  match resp with
  | .error _ => .notYetDone
  | .ok result =>
    if goToUpper result == tencentRunning then .notYetDone
    else if goToUpper result == tencentSuccess then .done
    else if goToUpper result == tencentFailed then .terminalFailure taskID
    else .done

/-! ## The node registry (`p.m : sync.Map` keyed by instance id) -/

/-- Model of `types.Node`, the per-node lifecycle state.  The SSH credential struct is
modelled as an opaque string. -/
structure Node where
  master : Bool
  rollBack : Bool
  current : Bool
  instanceID : String
  instanceStatus : String
  internalIPAddress : List String
  publicIPAddress : List String
  eipAllocationIds : List String
  ssh : String
deriving Repr, DecidableEq

/-- Registry in iteration order: association list keyed by instance id. -/
abbrev Registry := List (String × Node)

/-- Model of `sync.Map.Load`. -/
def lookupNode : Registry → String → Option Node
  | [], _ => none
  | kv :: rest, k => if kv.1 == k then some kv.2 else lookupNode rest k

/-- Model of `sync.Map.Store`: overwrite in place if the key exists, else append
(keys are unique in a `sync.Map`). -/
def storeNode : Registry → String → Node → Registry
  | [], k, v => [(k, v)]
  | kv :: rest, k, v => if kv.1 == k then (k, v) :: rest else kv :: storeNode rest k v

/-! ## `runInstances` (lines 1093-1159)

Only the registry-observable behavior is modelled: the provider response is
either an error or the returned `InstanceIdSet`; the tag/login/disk request
assembly has no effect on any claim.  The call is failed unless the id count
equals the requested count, and only then is each id stored. -/

/-- The node stored for a freshly launched instance:
`types.Node{Master: master, RollBack: true, InstanceID: id, InstanceStatus: tencent.StatusPending}`. -/
def launchNode (masterFlag : Bool) (id : String) : Node :=
  { master := masterFlag, rollBack := true, current := false, instanceID := id,
    instanceStatus := statusPending, internalIPAddress := [], publicIPAddress := [],
    eipAllocationIds := [], ssh := "" }

/-- Model of `runInstances`: returns the (possibly updated) registry and the error, if
any.  On an API error or a count mismatch nothing is stored. -/
def runInstancesModel (num : Nat) (masterFlag : Bool)
    (resp : Except String (List String)) (reg : Registry) :
    Registry × Option String :=
  match resp with
  | .error _ => (reg, some "calling runInstances error")
  | .ok instanceIdSet =>
    if instanceIdSet.length ≠ num then
      (reg, some "calling runInstances error")
    else
      (instanceIdSet.foldl (fun r id => storeNode r id (launchNode masterFlag id)) reg, none)

/-! ### Registry lemmas -/

theorem lookupNode_storeNode_self (reg : Registry) (k : String) (v : Node) :
    lookupNode (storeNode reg k v) k = some v := by
  induction reg with
  | nil => simp [storeNode, lookupNode]
  | cons kv rest ih =>
    by_cases h : kv.1 == k
    · simp [storeNode, lookupNode, h]
    · simp [storeNode, lookupNode, h, ih]

theorem lookupNode_storeNode_ne (reg : Registry) (k k' : String) (v : Node)
    (hne : k' ≠ k) : lookupNode (storeNode reg k v) k' = lookupNode reg k' := by
  induction reg with
  | nil =>
    simp only [storeNode, lookupNode]
    rw [if_neg (by simpa using fun e : k = k' => hne e.symm)]
  | cons kv rest ih =>
    by_cases h : kv.1 == k
    · have hk : kv.1 = k := by simpa using h
      by_cases h' : kv.1 == k'
      · exact absurd (by simpa using h' : kv.1 = k') (by rw [hk]; exact fun e => hne e.symm)
      · simp only [storeNode, if_pos h, lookupNode]
        rw [if_neg (by simpa using fun e => hne (e.symm : k' = k)), if_neg h']
    · by_cases h' : kv.1 == k'
      · simp [storeNode, lookupNode, h, h']
      · simp [storeNode, lookupNode, h, h', ih]

theorem lookupNode_foldl_store_notMem (f : String → Node) (ids : List String)
    (reg : Registry) (k : String) (hk : k ∉ ids) :
    lookupNode (ids.foldl (fun r i => storeNode r i (f i)) reg) k = lookupNode reg k := by
  induction ids generalizing reg with
  | nil => rfl
  | cons a rest ih =>
    have h1 : k ∉ rest := fun h => hk (List.mem_cons_of_mem _ h)
    have h2 : k ≠ a := fun h => hk (h ▸ List.mem_cons_self a rest)
    rw [List.foldl_cons, ih _ h1, lookupNode_storeNode_ne _ _ _ _ h2]

theorem lookupNode_foldl_store_mem (f : String → Node) (ids : List String)
    (reg : Registry) (id : String) (hid : id ∈ ids) :
    lookupNode (ids.foldl (fun r i => storeNode r i (f i)) reg) id = some (f id) := by
  induction ids generalizing reg with
  | nil => cases hid
  | cons a rest ih =>
    rw [List.foldl_cons]
    by_cases hmem : id ∈ rest
    · exact ih _ hmem
    · have : id = a := by
        rcases List.mem_cons.mp hid with h | h
        · exact h
        · exact absurd h hmem
      subst this
      rw [lookupNode_foldl_store_notMem _ _ _ _ hmem, lookupNode_storeNode_self]

/-- Claim C6 — the single-task waiter's poll maps the provider's result
Running to not-yet-done (poll again), Success to Done, Failed to a terminal
failure carrying the task id, any other value to Done, and an API error
during polling to not-yet-done. -/
theorem claim6_task_poll_mapping (taskID : Nat) :
    (∀ e, describeVpcTaskPoll taskID (.error e) = .notYetDone)
    ∧ (∀ s, goToUpper s = tencentRunning →
        describeVpcTaskPoll taskID (.ok s) = .notYetDone)
    ∧ (∀ s, goToUpper s = tencentSuccess →
        describeVpcTaskPoll taskID (.ok s) = .done)
    ∧ (∀ s, goToUpper s = tencentFailed →
        describeVpcTaskPoll taskID (.ok s) = .terminalFailure taskID)
    ∧ (∀ s, goToUpper s ≠ tencentRunning → goToUpper s ≠ tencentSuccess →
        goToUpper s ≠ tencentFailed → describeVpcTaskPoll taskID (.ok s) = .done) := by
  refine ⟨fun e => rfl, fun s h => ?_, fun s h => ?_, fun s h => ?_, fun s h1 h2 h3 => ?_⟩
  · simp [describeVpcTaskPoll, h]
  · simp [describeVpcTaskPoll, h, tencentRunning, tencentSuccess]
  · simp [describeVpcTaskPoll, h, tencentRunning, tencentSuccess, tencentFailed]
  · simp [describeVpcTaskPoll, h1, h2, h3]

/-- Witness for C6 at concrete inputs: a task id 7, an API error, and an
unrecognized result value. -/
theorem claim6_task_poll_mapping_witness :
    describeVpcTaskPoll 7 (.error "api down") = .notYetDone
    ∧ describeVpcTaskPoll 7 (.ok "Running") = .notYetDone
    ∧ describeVpcTaskPoll 7 (.ok "failed") = .terminalFailure 7
    ∧ describeVpcTaskPoll 7 (.ok "unexpected") = .done :=
  ⟨(claim6_task_poll_mapping 7).1 "api down",
   (claim6_task_poll_mapping 7).2.1 "Running" (by decide),
   (claim6_task_poll_mapping 7).2.2.2.1 "failed" (by decide),
   (claim6_task_poll_mapping 7).2.2.2.2 "unexpected" (by decide) (by decide) (by decide)⟩

/-- Claim C3 — a launch batch whose provider call errs or returns a number of
ids different from the requested count is reported as a failure and stores
nothing in the node registry; only when exactly `num` ids are returned is
each id upserted with status Pending and the rollback-eligible flag true
(entries for other keys are untouched). -/
theorem claim3_launch_batch_atomicity (num : Nat) (masterFlag : Bool)
    (resp : Except String (List String)) (reg : Registry) :
    (∀ e, resp = .error e →
      runInstancesModel num masterFlag resp reg = (reg, some "calling runInstances error"))
    ∧ (∀ ids, resp = .ok ids → ids.length ≠ num →
      runInstancesModel num masterFlag resp reg = (reg, some "calling runInstances error"))
    ∧ (∀ ids, resp = .ok ids → ids.length = num →
      (runInstancesModel num masterFlag resp reg).2 = none
      ∧ (∀ id ∈ ids,
          lookupNode (runInstancesModel num masterFlag resp reg).1 id
            = some (launchNode masterFlag id)
          ∧ (launchNode masterFlag id).instanceStatus = statusPending
          ∧ (launchNode masterFlag id).rollBack = true)
      ∧ (∀ k, k ∉ ids →
          lookupNode (runInstancesModel num masterFlag resp reg).1 k = lookupNode reg k)) := by
  refine ⟨fun e he => ?_, fun ids hok hne => ?_, fun ids hok hlen => ?_⟩
  · subst he; rfl
  · subst hok; simp [runInstancesModel, hne]
  · subst hok
    refine ⟨by simp [runInstancesModel, hlen], fun id hid => ?_, fun k hk => ?_⟩
    · exact ⟨by simp [runInstancesModel, hlen, lookupNode_foldl_store_mem _ _ _ _ hid],
        rfl, rfl⟩
    · simp [runInstancesModel, hlen, lookupNode_foldl_store_notMem _ _ _ _ hk]

/-- Witness for C3: a batch of 2 with exactly 2 returned ids stores both with
Pending/rollback-eligible, and a short response is a failure that stores
nothing. -/
theorem claim3_launch_batch_atomicity_witness :
    (runInstancesModel 2 true (.ok ["ins-a"]) [] = ([], some "calling runInstances error"))
    ∧ lookupNode (runInstancesModel 2 true (.ok ["ins-a", "ins-b"]) []).1 "ins-b"
        = some (launchNode true "ins-b")
    ∧ (runInstancesModel 2 true (.ok ["ins-a", "ins-b"]) []).2 = none :=
  ⟨(claim3_launch_batch_atomicity 2 true (.ok ["ins-a"]) []).2.1 ["ins-a"] rfl (by decide),
   (((claim3_launch_batch_atomicity 2 true (.ok ["ins-a", "ins-b"]) []).2.2
      ["ins-a", "ins-b"] rfl (by decide)).2.1 "ins-b" (by decide)).1,
   ((claim3_launch_batch_atomicity 2 true (.ok ["ins-a", "ins-b"]) []).2.2
      ["ins-a", "ins-b"] rfl (by decide)).1⟩

/-! ## Security-group rule reconciliation (`configDefaultSecurityPermission`,
lines 1572-1742)

The function reads the group's current ingress/egress policy sets, computes
presence flags per required port (2379/2380 also check the rule CIDR against
the subnet block or `0.0.0.0/0`), builds the list of missing ingress rules,
sends them in one `CreateSecurityGroupPolicies` call when nonempty, and adds
an allow-all egress rule in a second call when no egress rule exists.  It
never issues a delete/modify call, only creates. -/

/-- Model of `vpc.SecurityGroupPolicy` (the description text is irrelevant and
elided). -/
structure SecurityGroupPolicy where
  protocol : String
  port : String
  cidrBlock : String
  action : String
deriving Repr, DecidableEq

def mkIngressPolicy (proto port cidr : String) : SecurityGroupPolicy :=
  ⟨proto, port, cidr, "ACCEPT"⟩

/-- The allow-all egress rule (lines 1725-1733). -/
def allowAllEgress : SecurityGroupPolicy := ⟨"ALL", "all", ipRange, "ACCEPT"⟩

/-- A rule's `Port` field split on "," with each piece parsed by
`strconv.Atoi` (whose error case leaves the zero value 0) — lines 1603-1606. -/
def rulePorts (r : SecurityGroupPolicy) : List Int :=
  (goSplitComma r.port).map (fun p => (goAtoi p).getD 0)

/-- Presence flag for a plain port (the `switch fromPort` cases 22, 6443,
10250, 8472, 8999). -/
def hasPortRule (rules : List SecurityGroupPolicy) (n : Int) : Bool :=
  rules.any (fun r => (rulePorts r).contains n)

/-- Presence flag for the datastore ports 2379/2380, which additionally
require the rule's CIDR to equal the subnet block or `0.0.0.0/0`
(lines 1618-1625). -/
def hasEtcdPortRule (rules : List SecurityGroupPolicy) (n : Int) (cidr : String) : Bool :=
  rules.any (fun r =>
    (rulePorts r).contains n && (r.cidrBlock == cidr || r.cidrBlock == ipRange))

/-- The `perms` list built from the presence flags (lines 1636-1706), in
source order: 22, 8472 (only for the default/vxlan network mode), 6443,
10250, the 2379+2380 pair (both added when either is missing), 8999 (only
with UI enabled). -/
def securityPerms (network : String) (uiFlag : Bool) (cidr : String)
    (hasSSHPort hasVXlanPort hasAPIServerPort hasKubeletPort
     hasEtcdServerPort hasEtcdPeerPort hasUIPort : Bool) : List SecurityGroupPolicy :=
  (if !hasSSHPort then [mkIngressPolicy "TCP" "22" ipRange] else [])
  ++ (if (network == "" || network == "vxlan") && !hasVXlanPort then
        [mkIngressPolicy "UDP" "8472" ipRange] else [])
  ++ (if !hasAPIServerPort then [mkIngressPolicy "TCP" "6443" ipRange] else [])
  ++ (if !hasKubeletPort then [mkIngressPolicy "TCP" "10250" ipRange] else [])
  ++ (if !hasEtcdServerPort || !hasEtcdPeerPort then
        [mkIngressPolicy "TCP" "2379" cidr, mkIngressPolicy "TCP" "2380" cidr] else [])
  ++ (if uiFlag && !hasUIPort then [mkIngressPolicy "TCP" "8999" ipRange] else [])

/-- The two policy-creating calls the function can issue: the ingress batch
(`CreateSecurityGroupPolicies` with `Ingress: perms`, issued iff nonempty)
and the egress call (issued iff no egress rule existed). -/
structure SecurityCalls where
  ingressBatch : List SecurityGroupPolicy
  egressBatch : List SecurityGroupPolicy
deriving Repr, DecidableEq

/-- Model of `configDefaultSecurityPermission`, parameterized by the network mode, the
UI flag, the effective subnet CIDR (`getSubnetCidr` result, or the default
subnet block when no subnet id is set), and the group's existing ingress and
egress rules. -/
def configDefaultSecurityPermission (network : String) (uiFlag : Bool) (cidr : String)
    (ingress egress : List SecurityGroupPolicy) : SecurityCalls :=
  { ingressBatch :=
      securityPerms network uiFlag cidr
        (hasPortRule ingress 22) (hasPortRule ingress 8472)
        (hasPortRule ingress 6443) (hasPortRule ingress 10250)
        (hasEtcdPortRule ingress 2379 cidr) (hasEtcdPortRule ingress 2380 cidr)
        (hasPortRule ingress 8999),
    egressBatch := if egress.isEmpty then [allowAllEgress] else [] }

/-- Number of `CreateSecurityGroupPolicies` calls issued. -/
def securityCreateCalls (c : SecurityCalls) : Nat :=
  (if c.ingressBatch.isEmpty then 0 else 1) + (if c.egressBatch.isEmpty then 0 else 1)

theorem rulePorts_mk_22 (pr c : String) : rulePorts (mkIngressPolicy pr "22" c) = [22] := rfl

theorem rulePorts_mk_8472 (pr c : String) : rulePorts (mkIngressPolicy pr "8472" c) = [8472] := rfl

theorem rulePorts_mk_6443 (pr c : String) : rulePorts (mkIngressPolicy pr "6443" c) = [6443] := rfl

theorem rulePorts_mk_10250 (pr c : String) : rulePorts (mkIngressPolicy pr "10250" c) = [10250] := rfl

theorem rulePorts_mk_2379 (pr c : String) : rulePorts (mkIngressPolicy pr "2379" c) = [2379] := rfl

theorem rulePorts_mk_2380 (pr c : String) : rulePorts (mkIngressPolicy pr "2380" c) = [2380] := rfl

theorem rulePorts_mk_8999 (pr c : String) : rulePorts (mkIngressPolicy pr "8999" c) = [8999] := rfl

/-- Membership in a conditional singleton batch forces the guard. -/
theorem mem_ite_nil_e {α : Type} {c : Prop} [Decidable c] {l : List α} {r : α}
    (h : r ∈ if c then l else []) : c ∧ r ∈ l := by
  split at h
  · exact ⟨by assumption, h⟩
  · cases h

/-- Every rule in the computed `perms` batch is one of the six required-rule
templates, and its presence flag was false (for 2379/2380: at least one of
the two pair flags was false). -/
theorem mem_securityPerms {network : String} {uiFlag : Bool} {cidr : String}
    {f1 f2 f3 f4 f5 f6 f7 : Bool} {r : SecurityGroupPolicy}
    (hr : r ∈ securityPerms network uiFlag cidr f1 f2 f3 f4 f5 f6 f7) :
    (f1 = false ∧ r = mkIngressPolicy "TCP" "22" ipRange)
    ∨ (f2 = false ∧ r = mkIngressPolicy "UDP" "8472" ipRange)
    ∨ (f3 = false ∧ r = mkIngressPolicy "TCP" "6443" ipRange)
    ∨ (f4 = false ∧ r = mkIngressPolicy "TCP" "10250" ipRange)
    ∨ ((f5 = false ∨ f6 = false)
        ∧ (r = mkIngressPolicy "TCP" "2379" cidr ∨ r = mkIngressPolicy "TCP" "2380" cidr))
    ∨ (f7 = false ∧ r = mkIngressPolicy "TCP" "8999" ipRange) := by
  simp only [securityPerms, List.mem_append] at hr
  rcases hr with ((((h | h) | h) | h) | h) | h
  · rcases mem_ite_nil_e h with ⟨hc, hm⟩
    exact Or.inl ⟨by simpa using hc, by simpa using hm⟩
  · rcases mem_ite_nil_e h with ⟨hc, hm⟩
    rw [Bool.and_eq_true] at hc
    exact Or.inr (Or.inl ⟨by simpa using hc.2, by simpa using hm⟩)
  · rcases mem_ite_nil_e h with ⟨hc, hm⟩
    exact Or.inr (Or.inr (Or.inl ⟨by simpa using hc, by simpa using hm⟩))
  · rcases mem_ite_nil_e h with ⟨hc, hm⟩
    exact Or.inr (Or.inr (Or.inr (Or.inl ⟨by simpa using hc, by simpa using hm⟩)))
  · rcases mem_ite_nil_e h with ⟨hc, hm⟩
    rw [Bool.or_eq_true] at hc
    refine Or.inr (Or.inr (Or.inr (Or.inr (Or.inl ⟨?_, by simpa using hm⟩))))
    rcases hc with hc | hc
    · exact Or.inl (by simpa using hc)
    · exact Or.inr (by simpa using hc)
  · rcases mem_ite_nil_e h with ⟨hc, hm⟩
    rw [Bool.and_eq_true] at hc
    exact Or.inr (Or.inr (Or.inr (Or.inr (Or.inr ⟨by simpa using hc.2, by simpa using hm⟩))))

/-- Claim C1, counterexample — on a group whose only ingress rule is 2379/TCP
with the subnet CIDR (so the 2379 requirement is already satisfied) and no
egress rule, the code re-creates the 2379 rule anyway (because its 2380
partner is missing, the pair is re-added wholesale), and the allow-all
egress rule is not part of the ingress batch but is issued as a separate
call — both contrary to the claim. -/
theorem claim1_counterexample :
    (hasEtcdPortRule [mkIngressPolicy "TCP" "2379" subnetCidrBlock] 2379 subnetCidrBlock = true)
    ∧ ((configDefaultSecurityPermission "" false subnetCidrBlock
          [mkIngressPolicy "TCP" "2379" subnetCidrBlock] []).ingressBatch.any
        (fun r => r.port == "2379") = true)
    ∧ ((configDefaultSecurityPermission "" false subnetCidrBlock
          [mkIngressPolicy "TCP" "2379" subnetCidrBlock] []).ingressBatch.contains
        allowAllEgress = false)
    ∧ ((configDefaultSecurityPermission "" false subnetCidrBlock
          [mkIngressPolicy "TCP" "2379" subnetCidrBlock] []).egressBatch
        = [allowAllEgress]) := by
  decide

/-- Claim C1, amended — the reconciliation issues only create calls and only
for missing rules, with the one correction that 2379 and 2380 are handled as
a pair (if either is missing, both are re-added, so a present pair member can
be re-created): (i)–(v) a present 22/8472/6443/10250/8999 rule is never
re-created; (vi) when both 2379 and 2380 are present (with matching or
universal CIDR) neither is re-created; (vii) on a group already containing
every required ingress rule and at least one egress rule, zero create-rule
calls are issued; (viii) on an empty group with the default network mode the
ingress batch is exactly 22/TCP, 8472/UDP, 6443/TCP, 10250/TCP, 2379/TCP,
2380/TCP, plus 8999/TCP exactly when UI is enabled, and one allow-all egress
rule is issued as a separate call. -/
theorem claim1_security_reconcile_delta (network : String) (uiFlag : Bool) (cidr : String)
    (ingress egress : List SecurityGroupPolicy) :
    (hasPortRule ingress 22 = true →
      (configDefaultSecurityPermission network uiFlag cidr ingress egress).ingressBatch.all
        (fun r => !(rulePorts r).contains 22) = true)
    ∧ (hasPortRule ingress 8472 = true →
      (configDefaultSecurityPermission network uiFlag cidr ingress egress).ingressBatch.all
        (fun r => !(rulePorts r).contains 8472) = true)
    ∧ (hasPortRule ingress 6443 = true →
      (configDefaultSecurityPermission network uiFlag cidr ingress egress).ingressBatch.all
        (fun r => !(rulePorts r).contains 6443) = true)
    ∧ (hasPortRule ingress 10250 = true →
      (configDefaultSecurityPermission network uiFlag cidr ingress egress).ingressBatch.all
        (fun r => !(rulePorts r).contains 10250) = true)
    ∧ (hasPortRule ingress 8999 = true →
      (configDefaultSecurityPermission network uiFlag cidr ingress egress).ingressBatch.all
        (fun r => !(rulePorts r).contains 8999) = true)
    ∧ (hasEtcdPortRule ingress 2379 cidr = true → hasEtcdPortRule ingress 2380 cidr = true →
      (configDefaultSecurityPermission network uiFlag cidr ingress egress).ingressBatch.all
        (fun r => !(rulePorts r).contains 2379 && !(rulePorts r).contains 2380) = true)
    ∧ (hasPortRule ingress 22 = true → hasPortRule ingress 8472 = true →
       hasPortRule ingress 6443 = true → hasPortRule ingress 10250 = true →
       hasPortRule ingress 8999 = true → hasEtcdPortRule ingress 2379 cidr = true →
       hasEtcdPortRule ingress 2380 cidr = true → egress ≠ [] →
      securityCreateCalls (configDefaultSecurityPermission network uiFlag cidr ingress egress) = 0)
    ∧ (ingress = [] → egress = [] → network = "" →
      (configDefaultSecurityPermission network uiFlag cidr ingress egress).ingressBatch
        = [mkIngressPolicy "TCP" "22" ipRange, mkIngressPolicy "UDP" "8472" ipRange,
           mkIngressPolicy "TCP" "6443" ipRange, mkIngressPolicy "TCP" "10250" ipRange,
           mkIngressPolicy "TCP" "2379" cidr, mkIngressPolicy "TCP" "2380" cidr]
          ++ (if uiFlag then [mkIngressPolicy "TCP" "8999" ipRange] else [])
      ∧ (configDefaultSecurityPermission network uiFlag cidr ingress egress).egressBatch
          = [allowAllEgress]) := by
  refine ⟨fun h => ?_, fun h => ?_, fun h => ?_, fun h => ?_, fun h => ?_,
    fun h5 h6 => ?_, fun h1 h2 h3 h4 h7 h5 h6 he => ?_, fun hi he hn => ?_⟩
  · rw [List.all_eq_true]
    intro r hr
    rcases mem_securityPerms hr with ⟨hf, rfl⟩ | ⟨hf, rfl⟩ | ⟨hf, rfl⟩ | ⟨hf, rfl⟩
      | ⟨hf, hrr⟩ | ⟨hf, rfl⟩
    · rw [h] at hf; cases hf
    · simp [rulePorts_mk_8472]
    · simp [rulePorts_mk_6443]
    · simp [rulePorts_mk_10250]
    · rcases hrr with rfl | rfl
      · simp [rulePorts_mk_2379]
      · simp [rulePorts_mk_2380]
    · simp [rulePorts_mk_8999]
  · rw [List.all_eq_true]
    intro r hr
    rcases mem_securityPerms hr with ⟨hf, rfl⟩ | ⟨hf, rfl⟩ | ⟨hf, rfl⟩ | ⟨hf, rfl⟩
      | ⟨hf, hrr⟩ | ⟨hf, rfl⟩
    · simp [rulePorts_mk_22]
    · rw [h] at hf; cases hf
    · simp [rulePorts_mk_6443]
    · simp [rulePorts_mk_10250]
    · rcases hrr with rfl | rfl
      · simp [rulePorts_mk_2379]
      · simp [rulePorts_mk_2380]
    · simp [rulePorts_mk_8999]
  · rw [List.all_eq_true]
    intro r hr
    rcases mem_securityPerms hr with ⟨hf, rfl⟩ | ⟨hf, rfl⟩ | ⟨hf, rfl⟩ | ⟨hf, rfl⟩
      | ⟨hf, hrr⟩ | ⟨hf, rfl⟩
    · simp [rulePorts_mk_22]
    · simp [rulePorts_mk_8472]
    · rw [h] at hf; cases hf
    · simp [rulePorts_mk_10250]
    · rcases hrr with rfl | rfl
      · simp [rulePorts_mk_2379]
      · simp [rulePorts_mk_2380]
    · simp [rulePorts_mk_8999]
  · rw [List.all_eq_true]
    intro r hr
    rcases mem_securityPerms hr with ⟨hf, rfl⟩ | ⟨hf, rfl⟩ | ⟨hf, rfl⟩ | ⟨hf, rfl⟩
      | ⟨hf, hrr⟩ | ⟨hf, rfl⟩
    · simp [rulePorts_mk_22]
    · simp [rulePorts_mk_8472]
    · simp [rulePorts_mk_6443]
    · rw [h] at hf; cases hf
    · rcases hrr with rfl | rfl
      · simp [rulePorts_mk_2379]
      · simp [rulePorts_mk_2380]
    · simp [rulePorts_mk_8999]
  · rw [List.all_eq_true]
    intro r hr
    rcases mem_securityPerms hr with ⟨hf, rfl⟩ | ⟨hf, rfl⟩ | ⟨hf, rfl⟩ | ⟨hf, rfl⟩
      | ⟨hf, hrr⟩ | ⟨hf, rfl⟩
    · simp [rulePorts_mk_22]
    · simp [rulePorts_mk_8472]
    · simp [rulePorts_mk_6443]
    · simp [rulePorts_mk_10250]
    · rcases hrr with rfl | rfl
      · simp [rulePorts_mk_2379]
      · simp [rulePorts_mk_2380]
    · rw [h] at hf; cases hf
  · rw [List.all_eq_true]
    intro r hr
    rcases mem_securityPerms hr with ⟨hf, rfl⟩ | ⟨hf, rfl⟩ | ⟨hf, rfl⟩ | ⟨hf, rfl⟩
      | ⟨hf, hrr⟩ | ⟨hf, rfl⟩
    · simp [rulePorts_mk_22]
    · simp [rulePorts_mk_8472]
    · simp [rulePorts_mk_6443]
    · simp [rulePorts_mk_10250]
    · rcases hf with hf | hf
      · rw [h5] at hf; cases hf
      · rw [h6] at hf; cases hf
    · simp [rulePorts_mk_8999]
  · have hb : (configDefaultSecurityPermission network uiFlag cidr ingress egress).ingressBatch
        = [] := by
      simp [configDefaultSecurityPermission, securityPerms, h1, h2, h3, h4, h7, h5, h6]
    have hg : (configDefaultSecurityPermission network uiFlag cidr ingress egress).egressBatch
        = [] := by
      cases egress with
      | nil => exact absurd rfl he
      | cons x xs => simp [configDefaultSecurityPermission]
    simp [securityCreateCalls, hb, hg]
  · subst hi; subst he; subst hn
    cases uiFlag <;> exact ⟨rfl, rfl⟩

/-- Witness for C1 (amended): on a group already containing every required
rule (all with universal CIDR) and an egress rule, zero create calls are
issued; and the empty-group batch for UI-enabled mode is the full
seven-rule list plus the separate egress call. -/
theorem claim1_security_reconcile_delta_witness :
    securityCreateCalls (configDefaultSecurityPermission "" false subnetCidrBlock
      [mkIngressPolicy "TCP" "22" ipRange, mkIngressPolicy "UDP" "8472" ipRange,
       mkIngressPolicy "TCP" "6443" ipRange, mkIngressPolicy "TCP" "10250" ipRange,
       mkIngressPolicy "TCP" "2379" ipRange, mkIngressPolicy "TCP" "2380" ipRange,
       mkIngressPolicy "TCP" "8999" ipRange]
      [allowAllEgress]) = 0
    ∧ (configDefaultSecurityPermission "" true subnetCidrBlock [] []).ingressBatch
        = [mkIngressPolicy "TCP" "22" ipRange, mkIngressPolicy "UDP" "8472" ipRange,
           mkIngressPolicy "TCP" "6443" ipRange, mkIngressPolicy "TCP" "10250" ipRange,
           mkIngressPolicy "TCP" "2379" subnetCidrBlock,
           mkIngressPolicy "TCP" "2380" subnetCidrBlock]
          ++ (if true then [mkIngressPolicy "TCP" "8999" ipRange] else [])
    ∧ (configDefaultSecurityPermission "" true subnetCidrBlock [] []).egressBatch
        = [allowAllEgress] :=
  ⟨(claim1_security_reconcile_delta "" false subnetCidrBlock
      [mkIngressPolicy "TCP" "22" ipRange, mkIngressPolicy "UDP" "8472" ipRange,
       mkIngressPolicy "TCP" "6443" ipRange, mkIngressPolicy "TCP" "10250" ipRange,
       mkIngressPolicy "TCP" "2379" ipRange, mkIngressPolicy "TCP" "2380" ipRange,
       mkIngressPolicy "TCP" "8999" ipRange]
      [allowAllEgress]).2.2.2.2.2.2.1
    (by decide) (by decide) (by decide) (by decide) (by decide) (by decide) (by decide)
    (by decide),
   ((claim1_security_reconcile_delta "" true subnetCidrBlock [] []).2.2.2.2.2.2.2
     rfl rfl rfl).1,
   ((claim1_security_reconcile_delta "" true subnetCidrBlock [] []).2.2.2.2.2.2.2
     rfl rfl rfl).2⟩

/-! ## Create preflight validation (`CreateCheck`, lines 950-990) -/

/-- The provider/SSH fields `CreateCheck` reads. -/
structure CreateCheckInput where
  keyIds : String
  sshKeyPath : String
  masterStr : String
  clusterFlag : Bool
  dataStore : String
  masterExtraArgs : String
  region : String
  zone : String
  vpcID : String
  ccm : Bool
  routeTableName : String
deriving Repr, DecidableEq

/-- Model of `CreateCheck`.  Here `existsResult` is the outcome of the tag-based
`IsClusterExist` discovery (an API error there is returned as-is).  Returns
the preflight error, or `none` when validation passes.  The function makes
no resource-creating call. -/
def createCheck (i : CreateCheckInput) (existsResult : Except String Bool) : Option String :=
  if i.keyIds != "" && i.sshKeyPath == "" then
    some "calling preflight error: `--ssh-key-path` must set with `--key-pair`"
  else
    let masterNum : Int := (goAtoi i.masterStr).getD 0
    if masterNum < 1 ∨ (goAtoi i.masterStr).isNone then
      some "calling preflight error: `--master` number must >= 1"
    else if 1 < masterNum && !i.clusterFlag && i.dataStore == "" then
      some "calling preflight error: need to set `--cluster` or `--datastore` when `--master` number > 1"
    else if goContains i.masterExtraArgs "--datastore-endpoint" && i.dataStore != "" then
      some "calling preflight error: `--masterExtraArgs='--datastore-endpoint'` is duplicated with `--datastore`"
    else
      match existsResult with
      | .error e => some e
      | .ok existFlag =>
        if existFlag then
          some "calling preflight error: cluster is already exist"
        else if i.region != defaultRegion && i.zone == defaultZone && i.vpcID == "" then
          some "calling preflight error: must set `--zone` in specified region"
        else if i.ccm && i.routeTableName == "" then
          some "calling preflight error: must set `--router` if enabled tencent cloud manager"
        else none

/-- Claim C8, counterexample — an input passing every condition listed by the
claim (master = "1", no duplicated datastore flag, fresh cluster name,
default region/zone, no cloud controller manager) is still rejected, because
of the unlisted first check: a key-pair id supplied without
`--ssh-key-path`. -/
theorem claim8_counterexample :
    (createCheck
      { keyIds := "skey-11112222", sshKeyPath := "", masterStr := "1", clusterFlag := false,
        dataStore := "", masterExtraArgs := "", region := defaultRegion, zone := defaultZone,
        vpcID := "", ccm := false, routeTableName := "" } (.ok false)).isSome = true
    ∧ ¬((goAtoi "1").getD 0 < 1 ∨ (goAtoi "1").isNone)
    ∧ ((1 : Int) < (goAtoi "1").getD 0 && !false && ("" : String) == "") = false
    ∧ (goContains "" "--datastore-endpoint" && ("" : String) != "") = false
    ∧ (false = true → False)
    ∧ ((defaultRegion != defaultRegion) && (defaultZone == defaultZone) && ("" == "")) = false
    ∧ (false && (("" : String) == "")) = false := by
  decide

/-- Claim C8, amended — with the existence query succeeding, preflight returns
an error exactly when one of the claim's conditions holds **or** a key-pair
id is supplied without an SSH key path (the unlisted first check):
master count unparsable or < 1; master count > 1 with neither the clustering
flag nor a datastore endpoint; datastore endpoint given both via extra args
and the datastore option; the cluster name already exists; non-default region
with default zone and no explicit network; CCM without a route-table name. -/
theorem claim8_preflight_conditions (i : CreateCheckInput) (existFlag : Bool) :
    (createCheck i (.ok existFlag)).isSome = true ↔
      ((i.keyIds != "" && i.sshKeyPath == "") = true
      ∨ ((goAtoi i.masterStr).getD 0 < 1 ∨ (goAtoi i.masterStr).isNone)
      ∨ (1 < (goAtoi i.masterStr).getD 0 && !i.clusterFlag && i.dataStore == "") = true
      ∨ (goContains i.masterExtraArgs "--datastore-endpoint" && i.dataStore != "") = true
      ∨ existFlag = true
      ∨ (i.region != defaultRegion && i.zone == defaultZone && i.vpcID == "") = true
      ∨ (i.ccm && i.routeTableName == "") = true) := by
  unfold createCheck
  by_cases h1 : (i.keyIds != "" && i.sshKeyPath == "") = true
  · simp [h1]
  · rw [if_neg h1]
    by_cases h2 : ((goAtoi i.masterStr).getD 0 < 1 ∨ (goAtoi i.masterStr).isNone)
    · rw [if_pos h2]
      simp only [Option.isSome_some, true_iff]
      exact Or.inr (Or.inl (by simpa using h2))
    · rw [if_neg h2]
      by_cases h3 : (1 < (goAtoi i.masterStr).getD 0 && !i.clusterFlag && i.dataStore == "") = true
      · simp [h1, h2, h3]
      · rw [if_neg (by simpa using h3)]
        by_cases h4 : (goContains i.masterExtraArgs "--datastore-endpoint" && i.dataStore != "") = true
        · simp [h1, h2, h3, h4]
        · rw [if_neg (by simpa using h4)]
          cases existFlag with
          | true => simp [h1, h2, h3, h4]
          | false =>
            by_cases h6 : (i.region != defaultRegion && i.zone == defaultZone && i.vpcID == "") = true
            · simp [h1, h2, h3, h4, h6]
            · by_cases h7 : (i.ccm && i.routeTableName == "") = true
              · simp [h1, h2, h3, h4, h6, h7]
              · have h2' := not_or.mp h2
                simp [h1, h2, h3, h4, h6, h7]
                exact ⟨Int.not_lt.mp h2'.1, fun hn => h2'.2 (by simp [hn])⟩

/-- Witness for C8 (amended): a clean input (master = "1") passes preflight
(no condition of the disjunction holds), while a master count beyond
`math.MaxInt64` ("9223372036854775808", Go's `ErrRange`) is rejected even
with the clustering flag set — both by the theorem at concrete inputs. -/
theorem claim8_preflight_conditions_witness :
    (createCheck
      { keyIds := "", sshKeyPath := "", masterStr := "1", clusterFlag := false,
        dataStore := "", masterExtraArgs := "", region := defaultRegion, zone := defaultZone,
        vpcID := "", ccm := false, routeTableName := "" } (.ok false)).isSome = false
    ∧ (createCheck
      { keyIds := "", sshKeyPath := "", masterStr := "9223372036854775808",
        clusterFlag := true, dataStore := "", masterExtraArgs := "",
        region := defaultRegion, zone := defaultZone,
        vpcID := "", ccm := false, routeTableName := "" } (.ok false)).isSome = true := by
  constructor
  · have h := claim8_preflight_conditions
      { keyIds := "", sshKeyPath := "", masterStr := "1", clusterFlag := false,
        dataStore := "", masterExtraArgs := "", region := defaultRegion, zone := defaultZone,
        vpcID := "", ccm := false, routeTableName := "" } false
    revert h
    decide
  · exact (claim8_preflight_conditions
      { keyIds := "", sshKeyPath := "", masterStr := "9223372036854775808",
        clusterFlag := true, dataStore := "", masterExtraArgs := "",
        region := defaultRegion, zone := defaultZone,
        vpcID := "", ccm := false, routeTableName := "" } false).mpr
      (Or.inr (Or.inl (Or.inr (by decide))))

/-! ## Network provisioning (`configNetwork`, lines 1402-1463;
`generateDefaultVPC`, lines 1465-1485; `generateDefaultSubnet`,
lines 1487-1509)

The provider's network inventory is a state of VPCs and subnets; a
describe call is a filter over it (first match wins, as the code takes
element 0 of the returned set), and a create call appends a resource
carrying the fixed name and the ownership tag and returns its fresh id. -/

structure Vpc where
  vpcId : String
  name : String
  tagged : Bool
deriving Repr, DecidableEq

structure Subnet where
  subnetId : String
  name : String
  tagged : Bool
  vpcId : String
  zone : String
  cidrBlock : String
deriving Repr, DecidableEq

structure NetState where
  vpcs : List Vpc
  subnets : List Subnet
  nextId : Nat
deriving Repr, DecidableEq

/-- The `DescribeVpcs` filter of `configNetwork`: fixed vpc-name plus
ownership tag. -/
def vpcMatch (v : Vpc) : Bool := v.name == vpcName && v.tagged

/-- The `DescribeSubnets` filter of `configNetwork`: fixed subnet-name plus
ownership tag.  Note: the request carries no vpc-id filter (lines
1426-1437). -/
def subnetMatch (sn : Subnet) : Bool := sn.name == subnetName && sn.tagged

/-- Model of `CreateVpc` with the fixed name, fixed CIDR and ownership tag. -/
def createVpc (s : NetState) : NetState × String :=
  let vid := "vpc-" ++ toString s.nextId
  ({ s with
      vpcs := s.vpcs ++ [{ vpcId := vid, name := vpcName, tagged := true }]
      nextId := s.nextId + 1 }, vid)

/-- Model of `CreateSubnet` in the given vpc and zone, with the fixed name, fixed
CIDR and ownership tag. -/
def createSubnet (s : NetState) (vid zone : String) : NetState × String :=
  let sid := "subnet-" ++ toString s.nextId
  let sn : Subnet :=
    { subnetId := sid, name := subnetName, tagged := true,
      vpcId := vid, zone := zone, cidrBlock := subnetCidrBlock }
  ({ s with
      subnets := s.subnets ++ [sn]
      nextId := s.nextId + 1 }, sid)

/-- Result of one `configNetwork` invocation: the provider state afterwards,
the vpc/subnet ids recorded into the provider options, and how many create
calls of each kind were issued. -/
structure NetResult where
  state : NetState
  vpcID : String
  subnetID : String
  createVpcCalls : Nat
  createSubnetCalls : Nat
deriving Repr, DecidableEq

/-- Model of `configNetwork`: reuse the first tagged vpc with the fixed name if one
exists, then reuse the first tagged subnet with the fixed name if one
exists (any vpc), else create the missing pieces. -/
def configNetwork (s : NetState) (zone : String) : NetResult :=
  match s.vpcs.filter vpcMatch with
  | defaultVPC :: _ =>
    match s.subnets.filter subnetMatch with
    | sn :: _ => ⟨s, defaultVPC.vpcId, sn.subnetId, 0, 0⟩
    | [] =>
      let c := createSubnet s defaultVPC.vpcId zone
      ⟨c.1, defaultVPC.vpcId, c.2, 0, 1⟩
  | [] =>
    let cv := createVpc s
    let cs := createSubnet cv.1 cv.2 zone
    ⟨cs.1, cv.2, cs.2, 1, 1⟩

/-- A tagged subnet with the fixed name that lives in a vpc other than the
one the lookup will pick. -/
def orphanSubnet : Subnet :=
  { subnetId := "sub-B", name := subnetName, tagged := true,
    vpcId := "vpc-OTHER", zone := "z1", cidrBlock := "10.0.0.0/24" }

/-- A provider state whose only matching subnet belongs to a different vpc
than the only matching vpc. -/
def netStateA : NetState :=
  { vpcs := [{ vpcId := "vpc-A", name := vpcName, tagged := true }],
    subnets := [orphanSubnet],
    nextId := 0 }

/-- A provider state with no matching vpc but an orphaned matching subnet. -/
def netStateB : NetState :=
  { vpcs := [], subnets := [orphanSubnet], nextId := 0 }

/-- Claim C7, counterexample — (a) the subnet lookup is not scoped to the found
network: from `netStateA` the run reuses vpc `vpc-A` but adopts subnet
`sub-B`, which belongs to `vpc-OTHER`, issuing no create call; (b) two runs
in sequence need not return the same subnet identifier: from `netStateB` the
first run creates `subnet-1` but the second run returns the orphaned
`sub-B`. -/
theorem claim7_counterexample :
    ((configNetwork netStateA "z1").vpcID = "vpc-A"
     ∧ (configNetwork netStateA "z1").subnetID = "sub-B"
     ∧ (netStateA.subnets.map (fun sn => (sn.subnetId, sn.vpcId)))
         = [("sub-B", "vpc-OTHER")]
     ∧ (configNetwork netStateA "z1").createSubnetCalls = 0)
    ∧ ((configNetwork netStateB "z1").subnetID = "subnet-1"
       ∧ (configNetwork (configNetwork netStateB "z1").state "z1").subnetID = "sub-B") := by
  decide

/-- Claim C7, amended — `configNetwork` reuses an existing tagged network
(no vpc create call); the subnet is looked up by fixed name and ownership
tag only — not scoped to that network — and created only if no such subnet
exists anywhere; the second of two sequential runs issues no create call,
leaves the state unchanged and returns the same network identifier; it also
returns the same subnet identifier provided the initial state had a matching
vpc or had no matching subnet (an orphaned matching subnet next to no
matching vpc is re-adopted instead of the subnet the first run created). -/
theorem claim7_ensure_network_idempotent (s : NetState) (zone : String) :
    (∀ v rest, s.vpcs.filter vpcMatch = v :: rest →
      (configNetwork s zone).vpcID = v.vpcId ∧ (configNetwork s zone).createVpcCalls = 0)
    ∧ (∀ v rv sn rs, s.vpcs.filter vpcMatch = v :: rv →
        s.subnets.filter subnetMatch = sn :: rs →
        (configNetwork s zone).subnetID = sn.subnetId
        ∧ (configNetwork s zone).createSubnetCalls = 0
        ∧ (configNetwork s zone).state = s)
    ∧ ((configNetwork (configNetwork s zone).state zone).state = (configNetwork s zone).state
       ∧ (configNetwork (configNetwork s zone).state zone).vpcID = (configNetwork s zone).vpcID
       ∧ (configNetwork (configNetwork s zone).state zone).createVpcCalls = 0
       ∧ (configNetwork (configNetwork s zone).state zone).createSubnetCalls = 0)
    ∧ (s.vpcs.filter vpcMatch ≠ [] ∨ s.subnets.filter subnetMatch = [] →
        (configNetwork (configNetwork s zone).state zone).subnetID
          = (configNetwork s zone).subnetID) := by
  have hvm : ∀ n : Nat,
      vpcMatch { vpcId := "vpc-" ++ toString n, name := vpcName, tagged := true } = true :=
    fun n => rfl
  have hsm : ∀ (n : Nat) (vid z : String),
      subnetMatch
        { subnetId := "subnet-" ++ toString n, name := subnetName, tagged := true,
          vpcId := vid, zone := z, cidrBlock := subnetCidrBlock } = true :=
    fun n vid z => rfl
  refine ⟨fun v rest hv => ?_, fun v rv sn rs hv hs => ?_, ?_, ?_⟩
  · cases hs : s.subnets.filter subnetMatch with
    | nil => simp [configNetwork, hv, hs, createSubnet]
    | cons sn rs => simp [configNetwork, hv, hs]
  · simp [configNetwork, hv, hs]
  · cases hv : s.vpcs.filter vpcMatch with
    | cons v rv =>
      cases hs : s.subnets.filter subnetMatch with
      | cons sn rs => simp [configNetwork, hv, hs]
      | nil =>
        refine ⟨?_, ?_, ?_, ?_⟩ <;>
          simp [configNetwork, hv, hs, createSubnet, List.filter_append, hsm]
    | nil =>
      cases hs : s.subnets.filter subnetMatch with
      | cons sn rs =>
        refine ⟨?_, ?_, ?_, ?_⟩ <;>
          simp [configNetwork, hv, hs, createVpc, createSubnet, List.filter_append, hvm, hsm]
      | nil =>
        refine ⟨?_, ?_, ?_, ?_⟩ <;>
          simp [configNetwork, hv, hs, createVpc, createSubnet, List.filter_append, hvm, hsm]
  · intro hcond
    cases hv : s.vpcs.filter vpcMatch with
    | cons v rv =>
      cases hs : s.subnets.filter subnetMatch with
      | cons sn rs => simp [configNetwork, hv, hs]
      | nil => simp [configNetwork, hv, hs, createSubnet, List.filter_append, hsm]
    | nil =>
      rcases hcond with hcond | hcond
      · exact absurd hv hcond
      · simp [configNetwork, hv, hcond, createVpc, createSubnet, List.filter_append, hvm, hsm]

/-- Concrete witness inventory: a tagged vpc with the fixed name. -/
def vpcX : Vpc := { vpcId := "vpc-X", name := vpcName, tagged := true }

/-- Concrete witness inventory: its tagged subnet with the fixed name. -/
def subnetY : Subnet :=
  { subnetId := "subnet-Y", name := subnetName, tagged := true,
    vpcId := "vpc-X", zone := "z1", cidrBlock := subnetCidrBlock }

/-- Witness for C7 (amended): from a state that already holds the tagged
vpc/subnet pair, both are reused with zero create calls, through the
theorem's reuse conjunct at a concrete state. -/
theorem claim7_ensure_network_idempotent_witness :
    (configNetwork { vpcs := [vpcX], subnets := [subnetY], nextId := 5 } "z1").subnetID
      = "subnet-Y" :=
  ((claim7_ensure_network_idempotent
      { vpcs := [vpcX], subnets := [subnetY], nextId := 5 } "z1").2.1
    vpcX [] subnetY [] (by decide) (by decide)).1

/-! ## Delete and rollback (`deleteCluster`, lines 858-948; the EIP phase of
`Rollback`, lines 319-349)

The network-mutating calls these paths issue are recorded as an ordered
action trace; every provider response is an explicit environment field. -/

/-- A provider call with a visible side effect. -/
inductive CloudAction where
  | disassociate (addressId : String)
  | waitTask (taskId : Nat)
  | release (addressIds : List String)
  | terminate (instanceIds : List String)
deriving Repr, DecidableEq

/-- Conversion of `Except` to `Option` (an API error becomes `none`). -/
def exceptOk {ε α : Type} : Except ε α → Option α
  | .ok a => some a
  | .error _ => none

/-- One row of `DescribeResourcesByTags`. -/
structure ResourceTag where
  serviceType : String
  resourcePf : String
  resourceId : String
deriving Repr, DecidableEq

/-- The EIP classification of a tagged resource (lines 880-881):
case-insensitive match of both the service type and the resource prefix. -/
def isEIPResource (r : ResourceTag) : Bool :=
  goEqualFold serviceTypeEIP r.serviceType && goEqualFold resourcePfEIP r.resourcePf

/-- Environment of one `deleteCluster` run: the outcome of each provider
call it can make.  `instanceIds` is the tag-based `IsClusterExist` /
`describeInstances` discovery; `disassoc` returns the disassociation task id
(`0` doubles as "no task", matching `disassociateAddress` returning
`(0, nil)` on a nil task id). -/
structure DeleteEnv where
  instanceIds : Except String (List String)
  taggedRes : Except String (List ResourceTag)
  disassoc : String → Except String Nat
  release : List String → Except String Nat
  terminateOk : Bool
  overwriteCfgOk : Bool
  deleteStateOk : Bool
  removeAllOk : Bool

/-- The tagged resources classified as EIPs with a nonempty id
(lines 879-893). -/
def deleteEipRes (env : DeleteEnv) : List ResourceTag :=
  ((exceptOk env.taggedRes).getD []).filter
    (fun r => isEIPResource r && r.resourceId != "")

/-- The address ids collected for release (appended whether or not the
disassociate call succeeded). -/
def deleteEipIds (env : DeleteEnv) : List String :=
  (deleteEipRes env).map (fun r => r.resourceId)

/-- The disassociation task ids collected in `deleteCluster`: only from
successful disassociate calls, and only when nonzero (line 889). -/
def deleteTaskIds (env : DeleteEnv) : List Nat :=
  (deleteEipRes env).filterMap (fun r =>
    match env.disassoc r.resourceId with
    | .ok t => if t ≠ 0 then some t else none
    | .error _ => none)

/-- The local-state cleanup tail of `deleteCluster` (OverwriteCfg,
DeleteState, RemoveAll): each failure is returned only in non-force mode. -/
def cleanupResult (f : Bool) (env : DeleteEnv) : Option String :=
  if !env.overwriteCfgOk && !f then some "synchronizing .cfg file error"
  else if !env.deleteStateOk && !f then some "synchronizing .state file error"
  else if !env.removeAllOk && !f then some "remove cluster store folder error"
  else none

/-- Model of `deleteCluster f`: returns the trace of cloud actions issued and the
error returned, if any.  Note the guard before `terminateInstances`
(line 913) re-reads the error of the `describeResourcesByTags` call
(line 872): when that query failed, no terminate call is issued at all. -/
def deleteClusterModel (f : Bool) (env : DeleteEnv) : List CloudAction × Option String :=
  match env.instanceIds with
  | .error e => ([], some e)
  | .ok ids =>
    if ids.isEmpty then
      if !f then ([], some "calling preflight error: cluster name do not exist")
      else ([], none)
    else
      let tagErr : Bool := (exceptOk env.taggedRes).isNone
      let relActs : List CloudAction :=
        if (deleteEipIds env).isEmpty then []
        else [CloudAction.release (deleteEipIds env),
              CloudAction.waitTask ((exceptOk (env.release (deleteEipIds env))).getD 0)]
      let base := (deleteEipRes env).map (fun r => CloudAction.disassociate r.resourceId)
        ++ (deleteTaskIds env).map CloudAction.waitTask ++ relActs
      let tr := if tagErr then base else base ++ [CloudAction.terminate ids]
      let res : Option String :=
        if tagErr then (if !f then some "calling deleteCluster error" else cleanupResult f env)
        else if !env.terminateOk then some "calling deleteInstance error"
        else cleanupResult f env
      (tr, res)

/-- Environment of the EIP phase of `Rollback`: the `describeAddresses`
result over the rollback-eligible instance ids, and the per-call outcomes. -/
structure RollbackEnv where
  addresses : Except String (List String)
  disassoc : String → Except String Nat
  release : List String → Except String Nat

/-- The address ids of the rollback EIP phase (on a describe error the list
is nil and the loop is skipped). -/
def rollbackEips (env : RollbackEnv) : List String :=
  (exceptOk env.addresses).getD []

/-- The disassociation task ids collected in `Rollback` (here a zero id is
kept — there is no `!= 0` check at line 334). -/
def rollbackTaskIds (env : RollbackEnv) : List Nat :=
  (rollbackEips env).filterMap (fun a => exceptOk (env.disassoc a))

/-- The action trace of the rollback EIP phase: disassociate each address
(the id is collected for release whether or not that call succeeded), wait
on each collected task, then release all ids in one batch call and wait on
the release task.  The release call is issued unconditionally (line 342). -/
def rollbackEIPTrace (env : RollbackEnv) : List CloudAction :=
  (rollbackEips env).map CloudAction.disassociate
  ++ (rollbackTaskIds env).map CloudAction.waitTask
  ++ [CloudAction.release (rollbackEips env),
      CloudAction.waitTask ((exceptOk (env.release (rollbackEips env))).getD 0)]

/-- The tag-query-failure environment for the C2 counterexample: one tagged
instance exists, the tagged-resource query fails, everything else would
succeed, force mode is on. -/
def deleteEnvC : DeleteEnv :=
  { instanceIds := .ok ["ins-1"], taggedRes := .error "tag service unavailable",
    disassoc := fun _ => .ok 1, release := fun _ => .ok 2,
    terminateOk := true, overwriteCfgOk := true, deleteStateOk := true, removeAllOk := true }

/-- Claim C2, counterexample — force-mode delete with a failing tagged-resource
query: the discovered instance `ins-1` is never terminated (the whole run
issues no cloud action and reports success), contrary to the claim that all
tag-discovered instances are terminated even when the tagged-resource query
fails. -/
theorem claim2_counterexample :
    deleteEnvC.instanceIds = .ok ["ins-1"]
    ∧ deleteClusterModel true deleteEnvC = ([], none)
    ∧ CloudAction.terminate ["ins-1"] ∉ (deleteClusterModel true deleteEnvC).1 := by
  refine ⟨rfl, by decide, by decide⟩

/-- Claim C2, amended — in every delete run in which the tagged-resource
query succeeds, all instances discovered by the ownership and cluster tags
are terminated, whatever the outcome of every floating-IP disassociate,
wait or release step (those are quantified over in the environment); the
ids come from tag-based discovery, the only node source in the model.
When the tagged-resource query itself fails, the terminate call is skipped
(and force mode still reports success), as the counterexample shows. -/
theorem claim2_delete_terminates_tagged (f : Bool) (env : DeleteEnv)
    (ids : List String) (rs : List ResourceTag)
    (hids : env.instanceIds = .ok ids) (hne : ids ≠ [])
    (htag : env.taggedRes = .ok rs) :
    CloudAction.terminate ids ∈ (deleteClusterModel f env).1 := by
  have hEmpty : ids.isEmpty = false := by
    cases ids with
    | nil => exact absurd rfl hne
    | cons a l => rfl
  have hTagErr : (exceptOk env.taggedRes).isNone = false := by
    rw [htag]; rfl
  simp only [deleteClusterModel, hids, hEmpty, hTagErr, Bool.false_eq_true, if_false,
    ite_false]
  exact List.mem_append_right _ (List.mem_singleton.mpr rfl)

/-- Witness for C2 (amended): concrete two-instance cluster whose EIP steps
all fail, tag query succeeds — the terminate call is still issued. -/
theorem claim2_delete_terminates_tagged_witness :
    CloudAction.terminate ["ins-1", "ins-2"] ∈
      (deleteClusterModel true
        { instanceIds := .ok ["ins-1", "ins-2"],
          taggedRes := .ok [{ serviceType := "eip", resourcePf := "eip", resourceId := "eip-9" }],
          disassoc := fun _ => .error "boom", release := fun _ => .error "boom",
          terminateOk := false, overwriteCfgOk := false, deleteStateOk := false,
          removeAllOk := false }).1 :=
  claim2_delete_terminates_tagged true
    { instanceIds := .ok ["ins-1", "ins-2"],
      taggedRes := .ok [{ serviceType := "eip", resourcePf := "eip", resourceId := "eip-9" }],
      disassoc := fun _ => .error "boom", release := fun _ => .error "boom",
      terminateOk := false, overwriteCfgOk := false, deleteStateOk := false,
      removeAllOk := false }
    ["ins-1", "ins-2"]
    [{ serviceType := "eip", resourcePf := "eip", resourceId := "eip-9" }]
    rfl (by decide) rfl

/-- Is the action a batch release call? -/
def isReleaseAct : CloudAction → Bool
  | .release _ => true
  | _ => false

/-- The prefix of a trace strictly before its first release call. -/
def beforeRelease (tr : List CloudAction) : List CloudAction :=
  tr.takeWhile (fun a => !isReleaseAct a)

theorem beforeRelease_append (l r : List CloudAction) (e : List String)
    (hl : ∀ a ∈ l, isReleaseAct a = false) :
    beforeRelease (l ++ CloudAction.release e :: r) = l := by
  induction l with
  | nil => simp [beforeRelease, List.takeWhile_cons, isReleaseAct]
  | cons x xs ih =>
    have hx : isReleaseAct x = false := hl x (List.mem_cons_self _ _)
    have ih' := ih (fun a ha => hl a (List.mem_cons_of_mem _ ha))
    simp only [beforeRelease, List.cons_append, List.takeWhile_cons, hx] at ih' ⊢
    simp [ih']

/-- The disassociate-failure environment for the C4 counterexample. -/
def rollbackEnvC : RollbackEnv :=
  { addresses := .ok ["eip-1"], disassoc := fun _ => .error "API error",
    release := fun _ => .ok 9 }

/-- Claim C4, counterexample — in the rollback path, when the disassociate call
for `eip-1` fails, the batch release of `eip-1` is issued anyway, with no
disassociation-task wait at all before it: nothing about `eip-1` ever
resolved to Done (Success), yet the release call follows immediately. -/
theorem claim4_counterexample :
    rollbackEIPTrace rollbackEnvC
      = [CloudAction.disassociate "eip-1", CloudAction.release ["eip-1"],
         CloudAction.waitTask 9]
    ∧ beforeRelease (rollbackEIPTrace rollbackEnvC) = [CloudAction.disassociate "eip-1"] := by
  refine ⟨by decide, by decide⟩

/-- Claim C4, amended — in both the rollback and the delete path, the batch
release call is issued only after the wait on every *collected*
disassociation task has returned: every `waitTask t` for a collected task id
`t` occurs strictly before the first release call of the trace.  However,
the waits' outcomes are only logged — a task that resolved Failed (or a
disassociate call that failed outright, contributing no task) does not
prevent the release, so "resolved to Done (Success)" is not guaranteed, as
the counterexample shows. -/
theorem claim4_release_follows_waits (renv : RollbackEnv) (f : Bool) (denv : DeleteEnv)
    (ids : List String) (hids : denv.instanceIds = .ok ids) (hne : ids ≠ []) :
    (∀ t ∈ rollbackTaskIds renv,
      CloudAction.waitTask t ∈ beforeRelease (rollbackEIPTrace renv))
    ∧ (∀ t ∈ deleteTaskIds denv,
      CloudAction.waitTask t ∈ beforeRelease (deleteClusterModel f denv).1) := by
  constructor
  · intro t ht
    have hshape : rollbackEIPTrace renv
        = ((rollbackEips renv).map CloudAction.disassociate
            ++ (rollbackTaskIds renv).map CloudAction.waitTask)
          ++ CloudAction.release (rollbackEips renv)
            :: [CloudAction.waitTask ((exceptOk (renv.release (rollbackEips renv))).getD 0)] := by
      simp [rollbackEIPTrace]
    rw [hshape, beforeRelease_append]
    · exact List.mem_append_right _ (List.mem_map_of_mem _ ht)
    · intro a ha
      rcases List.mem_append.mp ha with h | h
      · rcases List.mem_map.mp h with ⟨x, _, rfl⟩; rfl
      · rcases List.mem_map.mp h with ⟨x, _, rfl⟩; rfl
  · intro t ht
    have hEmpty : ids.isEmpty = false := by
      cases ids with
      | nil => exact absurd rfl hne
      | cons a l => rfl
    have hTagErr : (exceptOk denv.taggedRes).isNone = false := by
      rcases hok : denv.taggedRes with e | rs
      · exfalso
        have : deleteTaskIds denv = [] := by
          simp [deleteTaskIds, deleteEipRes, hok, exceptOk]
        rw [this] at ht
        cases ht
      · rfl
    have hIdsNe : (deleteEipIds denv).isEmpty = false := by
      rcases List.mem_filterMap.mp ht with ⟨r, hr, _⟩
      cases hres : deleteEipRes denv with
      | nil => rw [hres] at hr; cases hr
      | cons x xs => simp [deleteEipIds, hres]
    simp only [deleteClusterModel, hids, hEmpty, hTagErr, Bool.false_eq_true, if_false,
      ite_false, hIdsNe]
    have hshape :
        ((deleteEipRes denv).map (fun r => CloudAction.disassociate r.resourceId)
            ++ (deleteTaskIds denv).map CloudAction.waitTask
            ++ [CloudAction.release (deleteEipIds denv),
                CloudAction.waitTask ((exceptOk (denv.release (deleteEipIds denv))).getD 0)])
          ++ [CloudAction.terminate ids]
        = ((deleteEipRes denv).map (fun r => CloudAction.disassociate r.resourceId)
            ++ (deleteTaskIds denv).map CloudAction.waitTask)
          ++ CloudAction.release (deleteEipIds denv)
            :: ([CloudAction.waitTask ((exceptOk (denv.release (deleteEipIds denv))).getD 0)]
                ++ [CloudAction.terminate ids]) := by
      simp
    rw [hshape, beforeRelease_append]
    · exact List.mem_append_right _ (List.mem_map_of_mem _ ht)
    · intro a ha
      rcases List.mem_append.mp ha with h | h
      · rcases List.mem_map.mp h with ⟨x, _, rfl⟩; rfl
      · rcases List.mem_map.mp h with ⟨x, _, rfl⟩; rfl

/-- Witness for C4 (amended): a rollback over two addresses with successful
disassociations — both task waits appear before the release — and a delete
over one tagged EIP. -/
theorem claim4_release_follows_waits_witness :
    CloudAction.waitTask 5 ∈ beforeRelease (rollbackEIPTrace
      { addresses := .ok ["eip-1", "eip-2"],
        disassoc := fun a => if a = "eip-1" then .ok 5 else .ok 6,
        release := fun _ => .ok 9 })
    ∧ CloudAction.waitTask 4 ∈ beforeRelease (deleteClusterModel false
      { instanceIds := .ok ["ins-1"],
        taggedRes := .ok [{ serviceType := "eip", resourcePf := "eip", resourceId := "eip-7" }],
        disassoc := fun _ => .ok 4, release := fun _ => .ok 9,
        terminateOk := true, overwriteCfgOk := true, deleteStateOk := true,
        removeAllOk := true }).1 :=
  ⟨(claim4_release_follows_waits
      { addresses := .ok ["eip-1", "eip-2"],
        disassoc := fun a => if a = "eip-1" then .ok 5 else .ok 6,
        release := fun _ => .ok 9 }
      false
      { instanceIds := .ok ["ins-1"],
        taggedRes := .ok [{ serviceType := "eip", resourcePf := "eip", resourceId := "eip-7" }],
        disassoc := fun _ => .ok 4, release := fun _ => .ok 9,
        terminateOk := true, overwriteCfgOk := true, deleteStateOk := true,
        removeAllOk := true }
      ["ins-1"] rfl (by decide)).1 5 (by decide),
   (claim4_release_follows_waits
      { addresses := .ok ["eip-1", "eip-2"],
        disassoc := fun a => if a = "eip-1" then .ok 5 else .ok 6,
        release := fun _ => .ok 9 }
      false
      { instanceIds := .ok ["ins-1"],
        taggedRes := .ok [{ serviceType := "eip", resourcePf := "eip", resourceId := "eip-7" }],
        disassoc := fun _ => .ok 4, release := fun _ => .ok 9,
        terminateOk := true, overwriteCfgOk := true, deleteStateOk := true,
        removeAllOk := true }
      ["ins-1"] rfl (by decide)).2 4 (by decide)⟩

/-! ## EIP allocation and pairing (`allocateEIPForInstance`,
lines 1744-1781) -/

/-- The pairing condition of the `Range` loop: same role and no public
address yet (`v.Master == master && v.PublicIPAddress == nil`; the nil slice
is modelled as the empty list). -/
def eipMatch (m : Bool) (v : Node) : Bool := v.master == m && v.publicIPAddress.isEmpty

/-- The `Range` loop of `allocateEIPForInstance` over the registry in
iteration order: each matching node takes the head of the remaining address
list (`eipAddresses[0]`, then `eipAddresses = eipAddresses[1:]`) and its
association-task id is collected; on an association error the callback
returns `false`, stopping the iteration — the failing node is not stored
and the task ids collected so far are kept.  The `none` result models the
index-out-of-range panic of `eipAddresses[0]` on an exhausted list.
Addresses are `(AddressId, AddressIp)` pairs. -/
def allocLoop (assoc : String → String → Except String Nat) (m : Bool) :
    Registry → List (String × String) → Option (Registry × List Nat)
  | [], _ => some ([], [])
  | (k, v) :: rest, eips =>
    if eipMatch m v then
      match eips with
      | [] => none
      | (aid, aip) :: er =>
        match assoc aid v.instanceID with
        | .error _ => some ((k, v) :: rest, [])
        | .ok t =>
          let v' := { v with
            eipAllocationIds := v.eipAllocationIds ++ [aid]
            publicIPAddress := v.publicIPAddress ++ [aip] }
          match allocLoop assoc m rest er with
          | none => none
          | some (r2, ts) => some ((k, v') :: r2, t :: ts)
    else
      match allocLoop assoc m rest eips with
      | none => none
      | some (r2, ts) => some ((k, v) :: r2, ts)

/-- Environment of `allocateEIPForInstance`: the batch allocation call, the
wait on its task, and the describe of the allocated addresses; `none` from
`describeResult` models a nil `AddressSet`, which skips the pairing loop
(line 1760). -/
structure EIPEnv where
  allocResult : Except String (List String × Nat)
  allocTaskOk : Bool
  describeResult : List String → Except String (Option (List (String × String)))
  assoc : String → String → Except String Nat

/-- Model of `allocateEIPForInstance`: allocation errors and a failed allocation task
abort with an error; the pairing loop's outcome (including an association
failure, which is *not* an error) is returned as `.ok`. -/
def allocateEIPForInstanceModel (env : EIPEnv) (m : Bool) (reg : Registry) :
    Except String (Option (Registry × List Nat)) :=
  match env.allocResult with
  | .error e => .error e
  | .ok (eips, _) =>
    if !env.allocTaskOk then .error "failed to allocate eip(s) for instance(s)"
    else
      match env.describeResult eips with
      | .error e => .error e
      | .ok none => .ok (some (reg, []))
      | .ok (some eipAddresses) => .ok (allocLoop env.assoc m reg eipAddresses)

/-- Positional relation between a registry entry before and after the
pairing loop: a matching node keeps its key, gains exactly one allocation id
and ends with exactly one public address; a non-matching node is untouched. -/
def pairedNode (m : Bool) (o n : String × Node) : Prop :=
  if eipMatch m o.2 then
    n.1 = o.1 ∧ (∃ a, n.2.eipAllocationIds = o.2.eipAllocationIds ++ [a])
      ∧ (∃ ip, n.2.publicIPAddress = [ip])
  else n = o

/-- The allocation id an entry gained, when it gained exactly one. -/
def newAddrOf (o n : String × Node) : Option String :=
  if n.2.eipAllocationIds.length = o.2.eipAllocationIds.length + 1 then
    n.2.eipAllocationIds.getLast?
  else none

/-- Claim C5 — with K allocated addresses for K registry nodes of the target
role that lack a public address, and all association calls succeeding, the
pairing loop gives every such node exactly one address, in registry
iteration order on a first-available basis: the sequence of gained address
ids equals the allocated id list itself (so no address goes to two distinct
nodes and none is left over), non-matching nodes are untouched, and the
per-node association-task ids are returned (one per address) rather than
awaited — the loop contains no wait. -/
theorem claim5_eip_pairing (assoc : String → String → Except String Nat) (m : Bool)
    (reg : Registry) (eips : List (String × String))
    (hok : ∀ a b, (assoc a b).isOk = true)
    (hlen : reg.countP (fun kv => eipMatch m kv.2) = eips.length) :
    ∃ reg2 tasks, allocLoop assoc m reg eips = some (reg2, tasks)
      ∧ List.Forall₂ (pairedNode m) reg reg2
      ∧ (reg.zip reg2).filterMap (fun p => newAddrOf p.1 p.2) = eips.map Prod.fst
      ∧ tasks.length = eips.length := by
  induction reg generalizing eips with
  | nil =>
    have he : eips = [] := List.eq_nil_of_length_eq_zero hlen.symm
    subst he
    exact ⟨[], [], rfl, List.Forall₂.nil, rfl, rfl⟩
  | cons kv rest ih =>
    obtain ⟨k, v⟩ := kv
    by_cases hm : eipMatch m v = true
    · rw [List.countP_cons] at hlen
      simp only [hm, if_pos] at hlen
      cases eips with
      | nil => simp at hlen
      | cons e er =>
        obtain ⟨aid, aip⟩ := e
        have hlen' : rest.countP (fun kv => eipMatch m kv.2) = er.length := by
          simpa using hlen
        obtain ⟨reg2, tasks, hloop, hrel, hzip, htl⟩ := ih er hlen'
        have hvempty : v.publicIPAddress = [] := by
          cases hpub : v.publicIPAddress with
          | nil => rfl
          | cons x xs => exfalso; simp [eipMatch, hpub] at hm
        cases hassoc : assoc aid v.instanceID with
        | error e0 =>
          have := hok aid v.instanceID
          rw [hassoc] at this
          cases this
        | ok t =>
          refine ⟨(k, { v with
              eipAllocationIds := v.eipAllocationIds ++ [aid]
              publicIPAddress := v.publicIPAddress ++ [aip] }) :: reg2, t :: tasks,
            ?_, ?_, ?_, ?_⟩
          · simp only [allocLoop, hm, if_pos, hassoc, List.append_eq, hloop]
          · refine List.Forall₂.cons ?_ hrel
            unfold pairedNode
            rw [if_pos hm]
            exact ⟨rfl, ⟨aid, rfl⟩, ⟨aip, by show v.publicIPAddress ++ [aip] = [aip]; rw [hvempty]; rfl⟩⟩
          · simp only [List.zip_cons_cons, List.filterMap_cons]
            have hnew : newAddrOf (k, v) (k, { v with
                eipAllocationIds := v.eipAllocationIds ++ [aid]
                publicIPAddress := v.publicIPAddress ++ [aip] }) = some aid := by
              simp [newAddrOf]
            rw [hnew, hzip]
            rfl
          · simpa using htl
    · rw [List.countP_cons] at hlen
      simp only [hm, if_neg, Bool.false_eq_true, ite_false, add_zero] at hlen
      obtain ⟨reg2, tasks, hloop, hrel, hzip, htl⟩ := ih eips hlen
      refine ⟨(k, v) :: reg2, tasks, ?_, ?_, ?_, htl⟩
      · simp only [allocLoop, hm, Bool.false_eq_true, if_false, List.append_eq, hloop]
      · refine List.Forall₂.cons ?_ hrel
        unfold pairedNode
        rw [if_neg (by simp [hm])]
      · simp only [List.zip_cons_cons, List.filterMap_cons]
        have hnone : newAddrOf (k, v) (k, v) = none := by
          simp [newAddrOf]
        rw [hnone, hzip]

/-- Witness for C5: two master nodes without public addresses, one worker,
two addresses; the masters are paired in order with the two address ids. -/
theorem claim5_eip_pairing_witness :
    ∃ reg2 tasks,
      allocLoop (fun _ _ => .ok 3) true
        [("i1", launchNode true "i1"), ("w1", launchNode false "w1"),
         ("i2", launchNode true "i2")]
        [("eip-a", "1.2.3.4"), ("eip-b", "5.6.7.8")] = some (reg2, tasks)
      ∧ List.Forall₂ (pairedNode true)
          [("i1", launchNode true "i1"), ("w1", launchNode false "w1"),
           ("i2", launchNode true "i2")] reg2
      ∧ (List.zip [("i1", launchNode true "i1"), ("w1", launchNode false "w1"),
           ("i2", launchNode true "i2")] reg2).filterMap (fun p => newAddrOf p.1 p.2)
          = [("eip-a", "1.2.3.4"), ("eip-b", "5.6.7.8")].map Prod.fst
      ∧ tasks.length = 2 :=
  claim5_eip_pairing (fun _ _ => .ok 3) true
    [("i1", launchNode true "i1"), ("w1", launchNode false "w1"),
     ("i2", launchNode true "i2")]
    [("eip-a", "1.2.3.4"), ("eip-b", "5.6.7.8")]
    (fun a b => rfl) (by decide)

/-- Claim C10 — when the association call fails at a matching node (after the
earlier matching nodes' associations succeeded), the registry iteration
stops there: the failing node and every later entry are left untouched, the
earlier matching nodes keep their pairings, and the loop result carries
exactly the task ids collected so far; the enclosing function surfaces this
as `.ok` — no error reaches the caller. -/
theorem claim10_assoc_failure_swallowed
    (assoc : String → String → Except String Nat) (m : Bool)
    (pre suf : Registry) (k : String) (v : Node)
    (eA eB : List (String × String)) (aBad ipBad : String)
    (hm : eipMatch m v = true)
    (hlen : pre.countP (fun kv => eipMatch m kv.2) = eA.length)
    (hpre : ∀ e ∈ eA, ∀ b, (assoc e.1 b).isOk = true)
    (hfail : (assoc aBad v.instanceID).isOk = false) :
    ∃ pre2 tasks,
      allocLoop assoc m (pre ++ (k, v) :: suf) (eA ++ (aBad, ipBad) :: eB)
        = some (pre2 ++ (k, v) :: suf, tasks)
      ∧ List.Forall₂ (pairedNode m) pre pre2
      ∧ tasks.length = eA.length
      ∧ (∀ addrIds tid,
          allocateEIPForInstanceModel
            { allocResult := .ok (addrIds, tid), allocTaskOk := true,
              describeResult := fun _ => .ok (some (eA ++ (aBad, ipBad) :: eB)),
              assoc := assoc } m (pre ++ (k, v) :: suf)
            = .ok (some (pre2 ++ (k, v) :: suf, tasks))) := by
  induction pre generalizing eA with
  | nil =>
    have he : eA = [] := List.eq_nil_of_length_eq_zero hlen.symm
    subst he
    cases hassoc : assoc aBad v.instanceID with
    | ok t => rw [hassoc] at hfail; cases hfail
    | error e0 =>
      refine ⟨[], [], ?_, List.Forall₂.nil, rfl, ?_⟩
      · simp only [List.nil_append, allocLoop, hm, if_pos, hassoc]
      · intro addrIds tid
        simp only [allocateEIPForInstanceModel, Bool.not_true, Bool.false_eq_true, if_false,
          ite_false, List.nil_append, allocLoop, hm, if_pos, hassoc]
  | cons kv0 pre' ih =>
    obtain ⟨k0, v0⟩ := kv0
    by_cases hm0 : eipMatch m v0 = true
    · rw [List.countP_cons] at hlen
      simp only [hm0, if_pos] at hlen
      cases eA with
      | nil => simp at hlen
      | cons e0 eA' =>
        obtain ⟨a0, ip0⟩ := e0
        have hlen' : pre'.countP (fun kv => eipMatch m kv.2) = eA'.length := by
          simpa using hlen
        have hpre' : ∀ e ∈ eA', ∀ b, (assoc e.1 b).isOk = true :=
          fun e he b => hpre e (List.mem_cons_of_mem _ he) b
        obtain ⟨pre2, tasks, hloop, hrel, htl, houter⟩ := ih eA' hlen' hpre'
        cases hassoc : assoc a0 v0.instanceID with
        | error e1 =>
          have := hpre (a0, ip0) (List.mem_cons_self _ _) v0.instanceID
          rw [hassoc] at this
          cases this
        | ok t =>
          refine ⟨(k0, { v0 with
              eipAllocationIds := v0.eipAllocationIds ++ [a0]
              publicIPAddress := v0.publicIPAddress ++ [ip0] }) :: pre2, t :: tasks,
            ?_, ?_, ?_, ?_⟩
          · simp only [List.cons_append, allocLoop, hm0, if_pos, hassoc, List.append_eq, hloop]
          · refine List.Forall₂.cons ?_ hrel
            have hvempty : v0.publicIPAddress = [] := by
              cases hpub : v0.publicIPAddress with
              | nil => rfl
              | cons x xs => exfalso; simp [eipMatch, hpub] at hm0
            unfold pairedNode
            rw [if_pos hm0]
            exact ⟨rfl, ⟨a0, rfl⟩, ⟨ip0, by show v0.publicIPAddress ++ [ip0] = [ip0]; rw [hvempty]; rfl⟩⟩
          · simpa using htl
          · intro addrIds tid
            simp only [allocateEIPForInstanceModel, Bool.not_true, Bool.false_eq_true,
              if_false, ite_false, List.cons_append, allocLoop, hm0, if_pos, hassoc,
              List.append_eq, hloop]
    · rw [List.countP_cons] at hlen
      simp only [hm0, if_neg, Bool.false_eq_true, ite_false, add_zero] at hlen
      obtain ⟨pre2, tasks, hloop, hrel, htl, houter⟩ := ih eA hlen hpre
      refine ⟨(k0, v0) :: pre2, tasks, ?_, ?_, htl, ?_⟩
      · simp only [List.cons_append, allocLoop, hm0, Bool.false_eq_true, if_false, List.append_eq, hloop]
      · refine List.Forall₂.cons ?_ hrel
        unfold pairedNode
        rw [if_neg (by simp [hm0])]
      · intro addrIds tid
        simp only [allocateEIPForInstanceModel, Bool.not_true, Bool.false_eq_true,
          if_false, ite_false, List.cons_append, allocLoop, hm0, List.append_eq, hloop]

/-- Witness for C10: three matching masters and three addresses, the second
association fails — the loop returns only the first task id, leaves nodes
two and three unpaired, and the function reports `.ok`. -/
theorem claim10_assoc_failure_swallowed_witness :
    ∃ pre2 tasks,
      allocLoop
        (fun a _ => if a = "eip-b" then .error "assoc failed" else .ok 1) true
        ([("i1", launchNode true "i1")]
          ++ ("i2", launchNode true "i2") :: [("i3", launchNode true "i3")])
        ([("eip-a", "1.1.1.1")] ++ ("eip-b", "2.2.2.2") :: [("eip-c", "3.3.3.3")])
        = some (pre2 ++ ("i2", launchNode true "i2") :: [("i3", launchNode true "i3")], tasks)
      ∧ List.Forall₂ (pairedNode true) [("i1", launchNode true "i1")] pre2
      ∧ tasks.length = 1
      ∧ (∀ addrIds tid,
          allocateEIPForInstanceModel
            { allocResult := .ok (addrIds, tid), allocTaskOk := true,
              describeResult := fun _ =>
                .ok (some ([("eip-a", "1.1.1.1")]
                  ++ ("eip-b", "2.2.2.2") :: [("eip-c", "3.3.3.3")])),
              assoc := fun a _ => if a = "eip-b" then .error "assoc failed" else .ok 1 }
            true
            ([("i1", launchNode true "i1")]
              ++ ("i2", launchNode true "i2") :: [("i3", launchNode true "i3")])
            = .ok (some (pre2 ++ ("i2", launchNode true "i2")
                :: [("i3", launchNode true "i3")], tasks))) :=
  claim10_assoc_failure_swallowed
    (fun a _ => if a = "eip-b" then .error "assoc failed" else .ok 1) true
    [("i1", launchNode true "i1")] [("i3", launchNode true "i3")]
    "i2" (launchNode true "i2")
    [("eip-a", "1.1.1.1")] [("eip-c", "3.3.3.3")] "eip-b" "2.2.2.2"
    (by decide) (by decide)
    (by intro e he b; rcases List.mem_singleton.mp he with h; subst h; rfl)
    rfl

/-! ## Discovery paths and rollback eligibility (`assembleInstanceStatus`,
lines 1027-1091; `syncClusterInstance`, lines 1841-1882; the id collection
of `Rollback`, lines 308-315) -/

/-- A described instance as the discovery paths read it. -/
structure InstanceInfo where
  instanceId : String
  instanceState : String
  tags : List (String × String)
  privateIPs : List String
  publicIPs : List String
deriving Repr, DecidableEq

/-- The master-tag scan (`strings.EqualFold` on key and value). -/
def hasMasterTag (ins : InstanceInfo) : Bool :=
  ins.tags.any (fun t => goEqualFold t.1 "master" && goEqualFold t.2 "true")

/-- The registry-update loop of `assembleInstanceStatus`: per described
instance, an EIP query error aborts the whole call; an instance already in
the registry is updated in place (keeping its `RollBack` flag, gaining
`Current = true` and fresh addresses); an instance not in the registry is
stored as a discovered node with `RollBack: false`.  The key-upload
sub-step of the update branch only touches the SSH credential (modelled as
the opaque `sshC`) and is elided. -/
def assembleLoop (eipAssigned : Bool) (eipOf : String → Except String (List String))
    (sshC : String) : Registry → List InstanceInfo → Except String Registry
  | reg, [] => .ok reg
  | reg, ins :: rest =>
    match (if eipAssigned then eipOf ins.instanceId else .ok []) with
    | .error e => .error e
    | .ok eip =>
      match lookupNode reg ins.instanceId with
      | some v =>
        assembleLoop eipAssigned eipOf sshC
          (storeNode reg ins.instanceId { v with
            current := true
            internalIPAddress := ins.privateIPs
            publicIPAddress := ins.publicIPs
            eipAllocationIds := eip
            ssh := sshC }) rest
      | none =>
        assembleLoop eipAssigned eipOf sshC
          (storeNode reg ins.instanceId
            { master := hasMasterTag ins, rollBack := false, current := false,
              instanceID := ins.instanceId, instanceStatus := statusRunning,
              internalIPAddress := ins.privateIPs, publicIPAddress := ins.publicIPs,
              eipAllocationIds := eip, ssh := "" }) rest

/-- The registry-update loop of `syncClusterInstance`: per described
instance, an EIP query error skips that instance (`continue`); otherwise the
node is stored unconditionally with the zero-value `RollBack` and `Current`
flags (both false). -/
def syncLoop (eipAssigned : Bool) (eipOf : String → Except String (List String))
    (sshC : String) : Registry → List InstanceInfo → Registry
  | reg, [] => reg
  | reg, ins :: rest =>
    match (if eipAssigned then eipOf ins.instanceId else .ok []) with
    | .error _ => syncLoop eipAssigned eipOf sshC reg rest
    | .ok eip =>
      syncLoop eipAssigned eipOf sshC
        (storeNode reg ins.instanceId
          { master := hasMasterTag ins, rollBack := false, current := false,
            instanceID := ins.instanceId, instanceStatus := ins.instanceState,
            internalIPAddress := ins.privateIPs, publicIPAddress := ins.publicIPs,
            eipAllocationIds := eip, ssh := sshC }) rest

/-- The id collection at the top of `Rollback`: the keys of the registry
entries whose `RollBack` flag is set — only these ids are handed to
`terminateInstances`. -/
def rollbackIds (reg : Registry) : List String :=
  (reg.filter (fun kv => kv.2.rollBack)).map (fun kv => kv.1)

/-- A rollback-eligible node surviving an `assembleInstanceStatus` pass was
already rollback-eligible before the pass: the loop never sets the flag. -/
theorem assembleLoop_rollback_source (eipAssigned : Bool)
    (eipOf : String → Except String (List String)) (sshC : String)
    (instances : List InstanceInfo) :
    ∀ reg reg2, assembleLoop eipAssigned eipOf sshC reg instances = .ok reg2 →
      ∀ k v, lookupNode reg2 k = some v → v.rollBack = true →
        ∃ w, lookupNode reg k = some w ∧ w.rollBack = true := by
  induction instances with
  | nil =>
    intro reg reg2 h k v hl hr
    cases h
    exact ⟨v, hl, hr⟩
  | cons ins rest ih =>
    intro reg reg2 h k v hl hr
    unfold assembleLoop at h
    cases heip : (if eipAssigned then eipOf ins.instanceId else .ok []) with
    | error e => rw [heip] at h; cases h
    | ok eip =>
      rw [heip] at h
      cases hlk : lookupNode reg ins.instanceId with
      | some v0 =>
        rw [hlk] at h
        obtain ⟨w, hw, hwr⟩ := ih _ _ h k v hl hr
        by_cases hk : k = ins.instanceId
        · subst hk
          rw [lookupNode_storeNode_self] at hw
          injection hw with hw
          subst hw
          exact ⟨v0, hlk, hwr⟩
        · rw [lookupNode_storeNode_ne _ _ _ _ hk] at hw
          exact ⟨w, hw, hwr⟩
      | none =>
        rw [hlk] at h
        obtain ⟨w, hw, hwr⟩ := ih _ _ h k v hl hr
        by_cases hk : k = ins.instanceId
        · subst hk
          rw [lookupNode_storeNode_self] at hw
          injection hw with hw
          subst hw
          cases hwr
        · rw [lookupNode_storeNode_ne _ _ _ _ hk] at hw
          exact ⟨w, hw, hwr⟩

/-- Same invariant for `syncClusterInstance`, whose stores always carry
`RollBack = false`. -/
theorem syncLoop_rollback_source (eipAssigned : Bool)
    (eipOf : String → Except String (List String)) (sshC : String)
    (instances : List InstanceInfo) :
    ∀ reg k v, lookupNode (syncLoop eipAssigned eipOf sshC reg instances) k = some v →
      v.rollBack = true →
        ∃ w, lookupNode reg k = some w ∧ w.rollBack = true := by
  induction instances with
  | nil => exact fun reg k v hl hr => ⟨v, hl, hr⟩
  | cons ins rest ih =>
    intro reg k v hl hr
    unfold syncLoop at hl
    cases heip : (if eipAssigned then eipOf ins.instanceId else .ok []) with
    | error e =>
      rw [heip] at hl
      exact ih _ _ _ hl hr
    | ok eip =>
      rw [heip] at hl
      obtain ⟨w, hw, hwr⟩ := ih _ _ _ hl hr
      by_cases hk : k = ins.instanceId
      · subst hk
        rw [lookupNode_storeNode_self] at hw
        injection hw with hw
        subst hw
        cases hwr
      · rw [lookupNode_storeNode_ne _ _ _ _ hk] at hw
        exact ⟨w, hw, hwr⟩

/-- Claim C9 — rollback eligibility is confined to the create path: a node
added to the registry by `assembleInstanceStatus` discovery (absent before
the pass) has `RollBack = false`; the same holds for every node stored by
`syncClusterInstance`; the nodes stored by a successful `runInstances`
launch carry `RollBack = true`; and `Rollback`'s id collection only selects
keys whose registry entry has `RollBack = true`, so a merely discovered
instance is never terminated by rollback. -/
theorem claim9_discovered_nodes_not_rollback_eligible :
    (∀ eipAssigned eipOf sshC reg instances reg2 k v,
      assembleLoop eipAssigned eipOf sshC reg instances = .ok reg2 →
      lookupNode reg k = none → lookupNode reg2 k = some v → v.rollBack = false)
    ∧ (∀ eipAssigned eipOf sshC reg instances k v,
      lookupNode reg k = none →
      lookupNode (syncLoop eipAssigned eipOf sshC reg instances) k = some v →
      v.rollBack = false)
    ∧ (∀ masterFlag id, (launchNode masterFlag id).rollBack = true)
    ∧ (∀ reg id, id ∈ rollbackIds reg → ∃ v, (id, v) ∈ reg ∧ v.rollBack = true) := by
  refine ⟨?_, ?_, fun masterFlag id => rfl, ?_⟩
  · intro eipAssigned eipOf sshC reg instances reg2 k v h hnone hl
    cases hr : v.rollBack with
    | false => rfl
    | true =>
      obtain ⟨w, hw, _⟩ :=
        assembleLoop_rollback_source eipAssigned eipOf sshC instances reg reg2 h k v hl hr
      rw [hnone] at hw
      cases hw
  · intro eipAssigned eipOf sshC reg instances k v hnone hl
    cases hr : v.rollBack with
    | false => rfl
    | true =>
      obtain ⟨w, hw, _⟩ :=
        syncLoop_rollback_source eipAssigned eipOf sshC instances reg k v hl hr
      rw [hnone] at hw
      cases hw
  · intro reg id hid
    rcases List.mem_map.mp hid with ⟨kv, hkv, hfst⟩
    rcases List.mem_filter.mp hkv with ⟨hmem, hrb⟩
    refine ⟨kv.2, ?_, by simpa using hrb⟩
    have : kv = (id, kv.2) := by
      rw [← hfst]
    rw [← this]
    exact hmem

/-- Witness for C9: a fresh instance `ins-new` discovered by an assemble
pass over an empty registry, and one discovered by a sync pass, both come
out with `RollBack = false`; and the rollback id collection on a mixed
registry picks only the launched (rollback-eligible) node. -/
theorem claim9_discovered_nodes_not_rollback_eligible_witness :
    (∃ v, lookupNode (syncLoop false (fun _ => .ok []) "cred" []
        [{ instanceId := "ins-new", instanceState := "Running", tags := [("master", "true")],
           privateIPs := ["10.0.0.2"], publicIPs := ["1.2.3.4"] }]) "ins-new" = some v
      ∧ v.rollBack = false)
    ∧ rollbackIds [("ins-a", launchNode true "ins-a"),
        ("ins-b", { launchNode false "ins-b" with rollBack := false })] = ["ins-a"] := by
  constructor
  · refine ⟨_, rfl, ?_⟩
    exact (claim9_discovered_nodes_not_rollback_eligible).2.1 false (fun _ => .ok []) "cred" []
      [{ instanceId := "ins-new", instanceState := "Running", tags := [("master", "true")],
         privateIPs := ["10.0.0.2"], publicIPs := ["1.2.3.4"] }] "ins-new" _ rfl rfl
  · decide

end Autok3sTencent
